import Mathlib

/-!
Shallow embedding of the qt-cctalk core (ccTalk link layer, protocol decoders
and the credit event-log reconciler) and proofs checking the specification's
claims against it.  Every definition below is translated from the C++ sources:
src/cctalk/cctalk_device.cpp, src/cctalk/cctalk_link_controller.cpp,
src/cctalk/serial_worker.cpp and src/cctalk/cctalk_enums.h.  Bytes are
modelled as `Nat` values below 256; C++ integer conversions that matter
(signed `char` reads of QByteArray elements, unsigned wrap-around) are made
explicit.
-/

/-- Value of a byte (0..255) when read through a C++ `char` on a
signed-char platform (x86), as happens for `QByteArray` element access:
bytes at or above 128 become negative. -/
def signedChar (b : Nat) : Int :=
  if b < 128 then (b : Int) else (b : Int) - 256

/-- C++ conversion of a (possibly negative) integer to `quint64`:
reduction modulo 2^64. -/
def toQuint64 (i : Int) : Nat :=
  (i % ((2 : Int) ^ 64)).toNat

/-- C++ conversion of a (possibly negative) integer to `quint16`:
reduction modulo 2^16. -/
def toQuint16 (i : Int) : Nat :=
  (i % ((2 : Int) ^ 16)).toNat

/-- Device category, from `enum class CcCategory` (cctalk_enums.h).  Only the
members the core logic branches on are listed individually; all remaining
enumerators behave identically in the embedded code and are collapsed into
`Other`. -/
inductive CcCategory
  | Unknown
  | CoinAcceptor
  | BillValidator
  | Other
deriving DecidableEq

/-- Device state, from `enum class CcDeviceState` (cctalk_device.h). -/
inductive CcDeviceState
  | ShutDown
  | UninitializedDown
  | Initialized
  | InitializationFailed
  | NormalAccepting
  | NormalRejecting
  | DiagnosticsPolling
  | UnexpectedDown
  | ExternalReset
deriving DecidableEq

/-- Coin rejection type, from `enum class CcCoinRejectionType`
(cctalk_enums.h). -/
inductive CcCoinRejectionType
  | Rejected
  | Accepted
  | Unknown
deriving DecidableEq

/-- Translation of `ccCoinAcceptorEventCodeGetRejectionType` (cctalk_enums.h).
The C++ switch is over `CcCoinAcceptorEventCode`, a `quint8` enum obtained by
`static_cast` from the raw event-code byte, so the function is embedded
directly on the byte value.  The first list holds the `Accepted` case labels,
the second the `Unknown` ones, the third (together with the inhibited-coin
range 128..159) the `Rejected` ones; a byte matching no case label falls
through the switch to the final `return Unknown`. -/
def ccCoinAcceptorEventCodeGetRejectionType (code : Nat) : CcCoinRejectionType :=
  if code ∈ [0, 7, 16, 17, 18, 19, 20, 23, 26, 27, 28, 29, 31, 36, 39, 40, 253, 254, 255] then
    CcCoinRejectionType.Accepted
  else if code ∈ [4, 5, 6, 21, 34, 35, 160, 191] then
    CcCoinRejectionType.Unknown
  else if code ∈ [1, 2, 3, 8, 9, 10, 11, 12, 13, 14, 15, 22, 24, 25, 30, 32, 33, 37, 38]
      ∨ (128 ≤ code ∧ code ≤ 159) then
    CcCoinRejectionType.Rejected
  else
    CcCoinRejectionType.Unknown

/-- Bill validator event type, from `enum class CcBillValidatorEventType`
(cctalk_enums.h). -/
inductive CcBillValidatorEventType
  | CustomUnknown
  | Reject
  | FraudAttempt
  | FatalError
  | Status
deriving DecidableEq

/-- Translation of `ccBillValidatorErrorCodeGetEventType` (cctalk_enums.h):
a `QMap` lookup on the error-code byte with default `FatalError`.  The lists
are the keys mapped to `Status`, `Reject` and `FraudAttempt` respectively;
every other byte (6, 7, 13, 15, 16, 19, 255 and all unknown codes) yields
`FatalError`. -/
def ccBillValidatorErrorCodeGetEventType (status : Nat) : CcBillValidatorEventType :=
  if status ∈ [0, 1, 4, 5, 10, 11, 12, 14, 20, 21] then
    CcBillValidatorEventType.Status
  else if status ∈ [2, 3] then
    CcBillValidatorEventType.Reject
  else if status ∈ [8, 9, 17, 18] then
    CcBillValidatorEventType.FraudAttempt
  else
    CcBillValidatorEventType.FatalError

/-- Event entry, from `struct CcEventData` (cctalk_enums.h).  Field defaults
mirror the C++ member initializers (`CustomNoError` is byte 255,
`CustomUnknown` is byte 255). -/
structure CcEventData where
  result_A : Nat := 0
  result_B : Nat := 0
  coin_id : Nat := 0
  coin_error_code : Nat := 0
  coin_sorter_path : Nat := 0
  bill_id : Nat := 0
  bill_error_code : Nat := 255
  bill_success_code : Nat := 255
  bill_event_type : CcBillValidatorEventType := CcBillValidatorEventType.CustomUnknown
deriving DecidableEq

/-- Translation of the `CcEventData` constructor (cctalk_enums.h). -/
def mkCcEventData (arg_result_A arg_result_B : Nat) (device_category : CcCategory) :
    CcEventData :=
  let base : CcEventData := { result_A := arg_result_A, result_B := arg_result_B }
  if device_category = CcCategory.CoinAcceptor then
    if arg_result_A = 0 then
      { base with coin_id := 0, coin_error_code := arg_result_B }
    else
      { base with coin_id := arg_result_A, coin_sorter_path := arg_result_B }
  else if device_category = CcCategory.BillValidator then
    if arg_result_A = 0 then
      { base with
          bill_id := 0
          bill_error_code := arg_result_B
          bill_event_type := ccBillValidatorErrorCodeGetEventType arg_result_B }
    else
      { base with bill_id := arg_result_A, bill_success_code := arg_result_B }
  else
    base

/-- Translation of `CcEventData::hasError` (cctalk_enums.h). -/
def CcEventData.hasError (ev : CcEventData) : Bool :=
  ev.result_A = 0

/-- Host-side callables that `CctalkDevice::processCreditEventLog` invokes
asynchronously (cctalk_device.cpp): the device category stored on the device,
the fault code that a `PerformSelfCheck` issued from this batch would report,
and the host's bill-validation predicate `bill_validator_func_` (invoked on
the bill position; fault code 0 is `CcFaultCode::Ok`). -/
structure ProcEnv where
  category : CcCategory
  selfCheckFaultCode : Nat
  billValidatorFunc : Nat → Bool

/-- Mutable state of the event loop inside `processCreditEventLog`
(cctalk_device.cpp lines 1128..1131), together with the observable emissions
made from inside the loop: `credits` records the positions passed to
`emit creditAccepted`, `processed` the events handled by loop iterations in
processing order (oldest first), and `internalErrorWarnings` the number of
"accepted even though we're in rejecting mode; internal error" log messages. -/
structure EventLoopState where
  self_check_requested : Bool := false
  bill_routing_pending : Bool := false
  bill_routing_force_reject : Bool := false
  routing_req_event : CcEventData := {}
  credits : List Nat := []
  processed : List CcEventData := []
  internalErrorWarnings : Nat := 0

/-- One iteration of the event loop of `processCreditEventLog`
(cctalk_device.cpp lines 1133..1239).  `processing_last_event` corresponds to
`i == 0`, i.e. the newest event of the batch. -/
def processOneEvent (env : ProcEnv) (accepting startup : Bool) (ev : CcEventData)
    (processing_last_event : Bool) (st : EventLoopState) : EventLoopState :=
  let st := { st with processed := st.processed ++ [ev] }
  if ev.hasError then
    if env.category = CcCategory.CoinAcceptor then
      if ccCoinAcceptorEventCodeGetRejectionType ev.coin_error_code = CcCoinRejectionType.Unknown then
        { st with self_check_requested := true }
      else
        st
    else
      if ev.bill_event_type ≠ CcBillValidatorEventType.Status
          ∧ ev.bill_event_type ≠ CcBillValidatorEventType.Reject then
        { st with self_check_requested := true }
      else
        st
  else
    if env.category = CcCategory.CoinAcceptor then
      let st :=
        if accepting = false ∧ startup = false then
          { st with internalErrorWarnings := st.internalErrorWarnings + 1 }
        else
          st
      if startup = false then
        { st with credits := st.credits ++ [ev.coin_id] }
      else
        st
    else
      if ev.bill_success_code = 1 then
        if processing_last_event = false then
          st
        else
          let st :=
            if accepting = false then
              { st with bill_routing_force_reject := true }
            else
              st
          { st with bill_routing_pending := true, routing_req_event := ev }
      else if ev.bill_success_code = 0 then
        let st :=
          if accepting = false ∧ startup = false then
            { st with internalErrorWarnings := st.internalErrorWarnings + 1 }
          else
            st
        if startup = false then
          { st with credits := st.credits ++ [ev.bill_id] }
        else
          st
      else
        st

/-- The full event loop of `processCreditEventLog`: the C++ `for` loop runs
`i` from `new_event_data.size() - 1` down to `0`, i.e. it consumes the
newest-first batch in reverse (oldest first) and `i == 0` holds exactly at the
final iteration; here the loop takes the already reversed (oldest-first) list
and the final iteration is the one whose tail is empty. -/
def processEvents (env : ProcEnv) (accepting startup : Bool) :
    List CcEventData → EventLoopState → EventLoopState
  | [], st => st
  | ev :: rest, st =>
      processEvents env accepting startup rest
        (processOneEvent env accepting startup ev rest.isEmpty st)

/-- Observable outcome of one `processCreditEventLog` call: the committed
host cursor `last_event_num`, the `creditAccepted` emissions, the processed
events, whether a "possible loss of credit" message was logged, the
internal-error warnings, the device-state switch requests issued
(`requestSwitchDeviceState`), whether a `PerformSelfCheck` was issued at end
of batch, and the `RouteBill` commands sent (0 = `ReturnBill`,
1 = `RouteToStacker`). -/
structure ProcResult where
  last_event_num : Nat
  credits : List Nat := []
  processed : List CcEventData := []
  lossOfCreditLogged : Bool := false
  internalErrorWarnings : Nat := 0
  stateRequests : List CcDeviceState := []
  selfCheckPerformed : Bool := false
  routeBills : List Nat := []

/-- End-of-batch phase of `processCreditEventLog` (cctalk_device.cpp lines
1246..1325): the `AsyncSerializer` runs, in order, the optional
`PerformSelfCheck`, the optional `RouteBill` decision, and the optional switch
to `DiagnosticsPolling`.  `shared_self_check_fault_code` starts at
`CcFaultCode::Ok` (byte 0) and is overwritten with the self-check result when
a self check was requested. -/
def endOfBatch (env : ProcEnv) (st : EventLoopState) (r : ProcResult) : ProcResult :=
  if st.bill_routing_pending = false ∧ st.self_check_requested = false then
    r
  else
    let fault : Nat := if st.self_check_requested then env.selfCheckFaultCode else 0
    let r := { r with selfCheckPerformed := st.self_check_requested }
    let r :=
      if st.bill_routing_pending then
        let accept : Bool :=
          if fault ≠ 0 then
            false
          else if st.bill_routing_force_reject then
            false
          else
            env.billValidatorFunc st.routing_req_event.bill_id
        { r with routeBills := r.routeBills ++ [if accept then 1 else 0] }
      else
        r
    if st.self_check_requested ∧ fault ≠ 0 then
      { r with stateRequests := r.stateRequests ++ [CcDeviceState.DiagnosticsPolling] }
    else
      r

/-- Translation of `CctalkDevice::processCreditEventLog` (cctalk_device.cpp
lines 1047..1326).  Inputs: whether the batch is processed in accepting mode
(`true` from `NormalAccepting` ticks, `false` from `NormalRejecting` ticks),
whether the ReadBufferedCredit / ReadBufferedBillEvents command reported an
error, the device event counter byte, the decoded event entries (newest
first), and the host cursor `last_event_num_`.  The C++ diff computation is
kept literally: `int` subtraction of the two counters, `+ 255` when negative,
commit of the cursor before the loop, `QVector::mid(0, n)` as `List.take`. -/
def processCreditEventLog (env : ProcEnv) (accepting : Bool)
    (event_log_cmd_error : Bool) (event_counter : Nat)
    (event_data : List CcEventData) (last_event_num : Nat) : ProcResult :=
  if event_log_cmd_error = false ∧ event_counter = 0 ∧ event_data = [] then
    { last_event_num := last_event_num }
  else if event_log_cmd_error = true then
    { last_event_num := last_event_num }
  else if last_event_num = 0 ∧ event_counter = 0 then
    { last_event_num := last_event_num }
  else if last_event_num ≠ 0 ∧ event_counter = 0 then
    { last_event_num := 0
      lossOfCreditLogged := true
      stateRequests := [CcDeviceState.ExternalReset] }
  else if last_event_num = event_counter then
    { last_event_num := last_event_num }
  else
    let processing_app_startup_events : Bool := last_event_num = 0
    let n0 : Int := (event_counter : Int) - (last_event_num : Int)
    let num_new_events : Nat := (if n0 < 0 then n0 + 255 else n0).toNat
    let new_event_data := event_data.take num_new_events
    let st := processEvents env accepting processing_app_startup_events
        new_event_data.reverse {}
    endOfBatch env st
      { last_event_num := event_counter
        credits := st.credits
        processed := st.processed
        lossOfCreditLogged := num_new_events > event_data.length
        internalErrorWarnings := st.internalErrorWarnings }

/-- Millisecond multiplier chosen by the `switch (unit)` in
`CctalkDevice::requestPollingInterval` (cctalk_device.cpp lines 655..667).
`ms_multiplier` is initialised to 1 and the switch has no default case, so
any `unit` value outside 0..9 keeps the initial 1. -/
def pollingMsMultiplier (unit : Nat) : Nat :=
  if unit = 0 then 0
  else if unit = 1 then 1
  else if unit = 2 then 10
  else if unit = 3 then 1000
  else if unit = 4 then 1000 * 60
  else if unit = 5 then 1000 * 60 * 60
  else if unit = 6 then 1000 * 60 * 60 * 24
  else if unit = 7 then 1000 * 60 * 60 * 24 * 7
  else if unit = 8 then 1000 * 60 * 60 * 24 * 7 * 30
  else if unit = 9 then 1000 * 31557600
  else 1

/-- Decoding of a 2-byte GetPollingPriority reply by
`CctalkDevice::requestPollingInterval` (cctalk_device.cpp lines 652..671):
`quint64 unit = command_data[0]` and `quint64 value = command_data[1]` read
the `QByteArray` elements as (signed) `char` and convert them to `quint64`,
sign-extending bytes at or above 128; the interval is
`ms_multiplier * value` in 64-bit arithmetic. -/
def requestPollingIntervalMsec (unit_byte value_byte : Nat) : Nat :=
  let unit : Nat := toQuint64 (signedChar unit_byte)
  let value : Nat := toQuint64 (signedChar value_byte)
  (pollingMsMultiplier unit * value) % 2 ^ 64

/-- `default_normal_polling_interval_msec_` (cctalk_device.h line 280). -/
def default_normal_polling_interval_msec : Nat := 100

/-- The polling-interval step of `CctalkDevice::switchStateInitialized`
(cctalk_device.cpp lines 332..349): a decoded interval of 0 or above
`max_interval_msec = 1000` is replaced by the default. -/
def normalPollingIntervalAfterInit (msec : Nat) : Nat :=
  if msec = 0 ∨ msec > 1000 then default_normal_polling_interval_msec else msec

/-- Decoding of the first two bytes of a 3-byte GetCountryScalingFactor reply
in `CctalkDevice::requestIdentifiers` (cctalk_device.cpp lines 952..953):
`int lsb = command_data.at(0), msb = command_data.at(1);` reads the bytes as
(signed) `char`, and `data.scaling_factor = quint16(lsb + msb*256)` reduces
the (possibly negative) sum modulo 2^16. -/
def countryScalingFactorDecode (lsb_byte msb_byte : Nat) : Nat :=
  toQuint16 (signedChar lsb_byte + signedChar msb_byte * 256)

/-- Decoding of the third byte of a GetCountryScalingFactor reply
(cctalk_device.cpp line 954): `data.decimal_places = command_data.at(2)`
converts the `char` to `quint8`, i.e. reduction modulo 256. -/
def countryDecimalPlacesDecode (b : Nat) : Nat :=
  b % 256

/-- Country scaling data, from `struct CcCountryScalingData`
(cctalk_enums.h); defaults mirror the C++ member initializers. -/
structure CcCountryScalingData where
  scaling_factor : Nat := 1
  decimal_places : Nat := 0
deriving DecidableEq

/-- Translation of `ccCoinValueCodeGetValue` (cctalk_enums.h): the fixed
value-code table, returning the `(coin_value, decimal_places)` pair; a code
absent from the table yields the default-constructed pair `(0, 0)`
(`QMap::value` with a default-constructed `QPair`). -/
def ccCoinValueCodeGetValue (three_char_code : String) : Nat × Nat :=
  if three_char_code = "5m0" then (5, 3)
  else if three_char_code = "10m" then (1, 2)
  else if three_char_code = ".01" then (1, 2)
  else if three_char_code = "20m" then (2, 2)
  else if three_char_code = ".02" then (2, 2)
  else if three_char_code = "25m" then (25, 3)
  else if three_char_code = "50m" then (5, 2)
  else if three_char_code = ".05" then (5, 2)
  else if three_char_code = ".10" then (1, 1)
  else if three_char_code = ".20" then (2, 1)
  else if three_char_code = ".25" then (25, 2)
  else if three_char_code = ".50" then (5, 1)
  else if three_char_code = "001" then (1, 0)
  else if three_char_code = "002" then (1, 0)
  else if three_char_code = "2.5" then (25, 1)
  else if three_char_code = "005" then (5, 0)
  else if three_char_code = "010" then (10, 0)
  else if three_char_code = "020" then (20, 0)
  else if three_char_code = "025" then (25, 0)
  else if three_char_code = "050" then (50, 0)
  else if three_char_code = "100" then (100, 0)
  else if three_char_code = "200" then (200, 0)
  else if three_char_code = "250" then (250, 0)
  else if three_char_code = "500" then (500, 0)
  else if three_char_code = "1K0" then (1000, 0)
  else if three_char_code = "2K0" then (2000, 0)
  else if three_char_code = "2K5" then (2500, 0)
  else if three_char_code = "5K0" then (5000, 0)
  else if three_char_code = "10K" then (10000, 0)
  else if three_char_code = "20K" then (20000, 0)
  else if three_char_code = "25K" then (25000, 0)
  else if three_char_code = "50K" then (50000, 0)
  else if three_char_code = "M10" then (100000, 0)
  else if three_char_code = "M20" then (200000, 0)
  else if three_char_code = "M25" then (250000, 0)
  else if three_char_code = "M50" then (500000, 0)
  else if three_char_code = "1M0" then (1000000, 0)
  else if three_char_code = "2M0" then (2000000, 0)
  else if three_char_code = "2M5" then (2500000, 0)
  else if three_char_code = "5M0" then (5000000, 0)
  else if three_char_code = "10M" then (10000000, 0)
  else if three_char_code = "20M" then (20000000, 0)
  else if three_char_code = "25M" then (25000000, 0)
  else if three_char_code = "50M" then (50000000, 0)
  else if three_char_code = "G10" then (100000000, 0)
  else (0, 0)

/-- Coin / bill identifier, from `struct CcIdentifier` (cctalk_enums.h);
field defaults mirror the C++ member initializers (`char issue_code = 0`
is kept as the byte value of the character). -/
structure CcIdentifier where
  id_string : String := ""
  country : String := ""
  issue_code : Nat := 0
  value_code : Nat := 0
  coin_decimals : Nat := 0
  country_scaling_data : CcCountryScalingData := {}
deriving DecidableEq

/-- Translation of the parsing `CcIdentifier` constructor (cctalk_enums.h
lines 1087..1103).  In C++ the member initializer list runs before the
constructor body, and `id_string(std::move(arg_id_string))` move-constructs
the member: Qt's `QByteArray` move constructor leaves the source array null.
The body then inspects the moved-from parameter, whose size is 0, so neither
the 7-character (bill) branch nor the 6-character (coin) branch is ever
taken; control reaches the `DBG_ASSERT(0)` branch and every parsed field
keeps its default value.  Both parse branches are nevertheless translated
verbatim below, operating on the moved-from value, exactly as written. -/
def mkCcIdentifier (arg_id_string : String) : CcIdentifier :=
  let id_string := arg_id_string
  let arg_id_string : String := ""
  if arg_id_string.length = 7 then
    { id_string := id_string
      country := arg_id_string.take 2
      issue_code := ((arg_id_string.toList.getLastD ' ').toNat)
      value_code := (((arg_id_string.drop 2).take 4).toNat?.getD 0) }
  else if arg_id_string.length = 6 then
    { id_string := id_string
      country := arg_id_string.take 2
      issue_code := ((arg_id_string.toList.getLastD ' ').toNat)
      value_code := (ccCoinValueCodeGetValue ((arg_id_string.drop 2).take 3)).1
      coin_decimals := (ccCoinValueCodeGetValue ((arg_id_string.drop 2).take 3)).2 }
  else
    { id_string := id_string }

/-- Reached `DBG_ASSERT(0)` marker for the `CcIdentifier` constructor: true
exactly when the constructor body falls through to its `else` branch
(cctalk_enums.h line 1101).  Because the body inspects the moved-from
argument, this is true for every call. -/
def mkCcIdentifierAssertTriggered (arg_id_string : String) : Bool :=
  let arg_id_string : String := ""
  ¬ (arg_id_string.length = 7) ∧ ¬ (arg_id_string.length = 6)

/-- Translation of `QByteArray::right(len)` (Qt): the last `len` bytes of the
array; the whole array when `len` is at least the size; the empty array when
`len` is negative. -/
def byteArrayRight (data : List Nat) (len : Int) : List Nat :=
  if (data.length : Int) ≤ len then data
  else if len < 0 then []
  else data.drop (data.length - len.toNat)

/-- The response delivered by `SerialWorker::sendRequest` once bytes have
been accumulated (serial_worker.cpp lines 118..132), for a request that
expects a reply.  `response_contains_request_` is `true` (serial_worker.h
line 87, and `CctalkLinkController::ccRequest` always passes `true`), so the
accumulated buffer is cut with
`response_data.right(response_data.size() - request_data.size())`; the
leading bytes are not compared with the transmitted request. -/
def sendRequestDeliveredResponse (request_data response_data : List Nat) : List Nat :=
  byteArrayRight response_data ((response_data.length : Int) - (request_data.length : Int))

/-- Link options set by `CctalkLinkController::setCcTalkOptions`
(cctalk_link_controller.cpp lines 84..90). -/
structure CcOptions where
  device_addr : Nat := 0
  checksum_16bit : Bool := false
  des_encrypted : Bool := false

/-- `controller_addr_`: the master address, always 1. -/
def controller_addr : Nat := 1

/-- Observable outcome of one `CctalkLinkController::ccRequest` call: the
returned request id, the number of `logMessage` emissions, the number of
`ccResponseMessageStructureError` emissions, and the frame bytes handed to
`SerialWorker::sendRequest` (none when no request was sent). -/
structure CcRequestOutcome where
  request_id : Nat
  logMessages : Nat := 0
  structureErrors : Nat := 0
  sentToWorker : Option (List Nat) := none

/-- Translation of `CctalkLinkController::ccRequest`
(cctalk_link_controller.cpp lines 124..176), with request logging disabled
(`show_cctalk_request_` false, its default).  When DES encryption or 16-bit
CRC checksums are configured the function logs an error and returns 0
without building or sending a frame.  Otherwise it builds
`dst | len | src | header | payload | csum8` (the checksum loop accumulates
`quint8(checksum + c)` over the frame and appends `quint8(256 - checksum)`),
increments the 64-bit request counter skipping 0, and hands the frame to the
serial worker. -/
def ccRequest (opts : CcOptions) (req_num : Nat) (command : Nat) (data : List Nat) :
    CcRequestOutcome :=
  if opts.des_encrypted = true then
    { request_id := 0, logMessages := 1 }
  else if opts.checksum_16bit = true then
    { request_id := 0, logMessages := 1 }
  else
    let request_data :=
      [opts.device_addr % 256, data.length % 256, controller_addr % 256, command % 256] ++ data
    let checksum := request_data.foldl (fun acc c => (acc + c) % 256) 0
    let checksum := (256 - checksum) % 256
    let request_data := request_data ++ [checksum]
    let request_id := (req_num + 1) % 2 ^ 64
    let request_id := if request_id = 0 then (req_num + 2) % 2 ^ 64 else request_id
    { request_id := request_id, sentToWorker := some request_data }

/-- Translation of the guard in `CctalkLinkController::executeOnReturn`
(cctalk_link_controller.cpp lines 183..185): for `sent_request_id == 0`
("nothing was sent") the function returns at once and never registers the
completion callback, so the callback can never be invoked. -/
def executeOnReturnRegisters (sent_request_id : Nat) : Bool :=
  sent_request_id ≠ 0

theorem processOneEvent_processed (env : ProcEnv) (a su : Bool) (ev : CcEventData)
    (pl : Bool) (st : EventLoopState) :
    (processOneEvent env a su ev pl st).processed = st.processed ++ [ev] := by
  simp only [processOneEvent]
  split_ifs <;> rfl

theorem processOneEvent_credits_startup (env : ProcEnv) (a : Bool) (ev : CcEventData)
    (pl : Bool) (st : EventLoopState) :
    (processOneEvent env a true ev pl st).credits = st.credits := by
  simp only [processOneEvent]
  split_ifs <;> simp_all

theorem processOneEvent_warnings (env : ProcEnv) (ev : CcEventData)
    (pl : Bool) (st : EventLoopState) :
    (processOneEvent env false false ev pl st).internalErrorWarnings
        + st.credits.length
      = (processOneEvent env false false ev pl st).credits.length
        + st.internalErrorWarnings := by
  simp only [processOneEvent]
  split_ifs <;> (try simp_all) <;> omega

theorem processOneEvent_flags_not_last (env : ProcEnv) (a su : Bool) (ev : CcEventData)
    (st : EventLoopState) :
    (processOneEvent env a su ev false st).bill_routing_pending = st.bill_routing_pending
    ∧ (processOneEvent env a su ev false st).bill_routing_force_reject
        = st.bill_routing_force_reject
    ∧ (processOneEvent env a su ev false st).routing_req_event = st.routing_req_event := by
  simp only [processOneEvent]
  split_ifs <;> simp_all

theorem processOneEvent_flags_last (env : ProcEnv) (a su : Bool) (ev : CcEventData)
    (st : EventLoopState) (hcat : env.category ≠ CcCategory.CoinAcceptor) :
    (ev.hasError = false ∧ ev.bill_success_code = 1 →
      (processOneEvent env a su ev true st).bill_routing_pending = true
      ∧ (processOneEvent env a su ev true st).routing_req_event = ev
      ∧ (processOneEvent env a su ev true st).bill_routing_force_reject
          = (!a || st.bill_routing_force_reject))
    ∧ (ev.hasError = true ∨ ev.bill_success_code ≠ 1 →
      (processOneEvent env a su ev true st).bill_routing_pending = st.bill_routing_pending
      ∧ (processOneEvent env a su ev true st).routing_req_event = st.routing_req_event
      ∧ (processOneEvent env a su ev true st).bill_routing_force_reject
          = st.bill_routing_force_reject) := by
  simp only [processOneEvent]
  split_ifs <;> simp_all

theorem processEvents_processed (env : ProcEnv) (a su : Bool) :
    ∀ (l : List CcEventData) (st : EventLoopState),
    (processEvents env a su l st).processed = st.processed ++ l := by
  intro l
  induction l with
  | nil => intro st; simp [processEvents]
  | cons ev rest ih =>
      intro st
      simp [processEvents, ih, processOneEvent_processed]

theorem processEvents_credits_startup (env : ProcEnv) (a : Bool) :
    ∀ (l : List CcEventData) (st : EventLoopState),
    (processEvents env a true l st).credits = st.credits := by
  intro l
  induction l with
  | nil => intro st; simp [processEvents]
  | cons ev rest ih =>
      intro st
      simp [processEvents, ih, processOneEvent_credits_startup]

theorem processEvents_warnings (env : ProcEnv) :
    ∀ (l : List CcEventData) (st : EventLoopState),
    (processEvents env false false l st).internalErrorWarnings + st.credits.length
      = (processEvents env false false l st).credits.length + st.internalErrorWarnings := by
  intro l
  induction l with
  | nil => intro st; simp only [processEvents]; omega
  | cons ev rest ih =>
      intro st
      have h1 := processOneEvent_warnings env ev rest.isEmpty st
      have h2 := ih (processOneEvent env false false ev rest.isEmpty st)
      simp only [processEvents]
      omega

theorem processEvents_flags_append (env : ProcEnv) (a su : Bool) (ev : CcEventData)
    (hcat : env.category ≠ CcCategory.CoinAcceptor) :
    ∀ (l : List CcEventData) (st : EventLoopState),
    (ev.hasError = false ∧ ev.bill_success_code = 1 →
      (processEvents env a su (l ++ [ev]) st).bill_routing_pending = true
      ∧ (processEvents env a su (l ++ [ev]) st).routing_req_event = ev
      ∧ (processEvents env a su (l ++ [ev]) st).bill_routing_force_reject
          = (!a || st.bill_routing_force_reject))
    ∧ (ev.hasError = true ∨ ev.bill_success_code ≠ 1 →
      (processEvents env a su (l ++ [ev]) st).bill_routing_pending
          = st.bill_routing_pending
      ∧ (processEvents env a su (l ++ [ev]) st).routing_req_event
          = st.routing_req_event
      ∧ (processEvents env a su (l ++ [ev]) st).bill_routing_force_reject
          = st.bill_routing_force_reject) := by
  intro l
  induction l with
  | nil =>
      intro st
      simpa [processEvents] using processOneEvent_flags_last env a su ev st hcat
  | cons x l' ih =>
      intro st
      have hx := processOneEvent_flags_not_last env a su x st
      have hrec := ih (processOneEvent env a su x ((l' ++ [ev]).isEmpty) st)
      have hne : (l' ++ [ev]).isEmpty = false := by simp
      rw [hne] at hrec
      constructor
      · intro h
        obtain ⟨p1, p2, p3⟩ := hrec.1 h
        refine ⟨?_, ?_, ?_⟩
        · simpa [processEvents, hne] using p1
        · simpa [processEvents, hne] using p2
        · rw [show processEvents env a su (x :: l' ++ [ev]) st
              = processEvents env a su (l' ++ [ev])
                  (processOneEvent env a su x false st) by simp [processEvents, hne]]
          rw [p3, hx.2.1]
      · intro h
        obtain ⟨p1, p2, p3⟩ := hrec.2 h
        rw [show processEvents env a su (x :: l' ++ [ev]) st
            = processEvents env a su (l' ++ [ev])
                (processOneEvent env a su x false st) by simp [processEvents, hne]]
        exact ⟨by rw [p1, hx.1], by rw [p2, hx.2.2], by rw [p3, hx.2.1]⟩

theorem endOfBatch_preserved (env : ProcEnv) (st : EventLoopState) (r : ProcResult) :
    (endOfBatch env st r).credits = r.credits
    ∧ (endOfBatch env st r).processed = r.processed
    ∧ (endOfBatch env st r).last_event_num = r.last_event_num
    ∧ (endOfBatch env st r).lossOfCreditLogged = r.lossOfCreditLogged
    ∧ (endOfBatch env st r).internalErrorWarnings = r.internalErrorWarnings := by
  simp only [endOfBatch]
  split_ifs <;> simp_all

theorem endOfBatch_routeBills_no_pending (env : ProcEnv) (st : EventLoopState)
    (r : ProcResult) (h : st.bill_routing_pending = false) :
    (endOfBatch env st r).routeBills = r.routeBills := by
  simp only [endOfBatch, h]
  split_ifs <;> simp_all

theorem endOfBatch_routeBills_pending (env : ProcEnv) (st : EventLoopState)
    (r : ProcResult) (h : st.bill_routing_pending = true) :
    (endOfBatch env st r).routeBills
      = r.routeBills
        ++ [if (st.self_check_requested = true ∧ env.selfCheckFaultCode ≠ 0)
              ∨ st.bill_routing_force_reject = true then 0
            else if env.billValidatorFunc st.routing_req_event.bill_id then 1 else 0] := by
  simp only [endOfBatch, h]
  cases hsc : st.self_check_requested <;> split_ifs <;> simp_all

theorem endOfBatch_selfCheckPerformed_pending (env : ProcEnv) (st : EventLoopState)
    (r : ProcResult) (h : st.bill_routing_pending = true) :
    (endOfBatch env st r).selfCheckPerformed = st.self_check_requested := by
  simp only [endOfBatch, h]
  split_ifs <;> simp_all

/-- The new-event count computed by `processCreditEventLog` (cctalk_device.cpp
lines 1113..1116): `int num_new_events = int(event_counter) - int(last_event_num_);
if (num_new_events < 0) num_new_events += 255;`. -/
def numNewEvents (last counter : Nat) : Nat :=
  (if ((counter : Int) - (last : Int)) < 0 then ((counter : Int) - (last : Int)) + 255
   else ((counter : Int) - (last : Int))).toNat

theorem processCreditEventLog_normal (env : ProcEnv) (a : Bool) (counter : Nat)
    (buf : List CcEventData) (last : Nat)
    (hcnz : counter ≠ 0) (hne : ¬ last = counter) :
    processCreditEventLog env a false counter buf last
      = endOfBatch env
          (processEvents env a (last = 0) (buf.take (numNewEvents last counter)).reverse {})
          { last_event_num := counter
            credits := (processEvents env a (last = 0)
                (buf.take (numNewEvents last counter)).reverse {}).credits
            processed := (processEvents env a (last = 0)
                (buf.take (numNewEvents last counter)).reverse {}).processed
            lossOfCreditLogged := numNewEvents last counter > buf.length
            internalErrorWarnings := (processEvents env a (last = 0)
                (buf.take (numNewEvents last counter)).reverse {}).internalErrorWarnings } := by
  unfold processCreditEventLog
  rw [if_neg (by simp [hcnz]), if_neg (by simp), if_neg (by simp [hcnz]),
      if_neg (by simp [hcnz]), if_neg hne]
  rfl

theorem numNewEvents_eq_emod (last counter : Nat) (hl : last ≤ 255) (hc : counter ≤ 255)
    (hlnz : last ≠ 0) (hcnz : counter ≠ 0) (hne : counter ≠ last) :
    (numNewEvents last counter : Int) = ((counter : Int) - (last : Int)) % 255 := by
  unfold numNewEvents
  split_ifs <;> omega

theorem numNewEvents_pos (last counter : Nat) (hl : last ≤ 255) (hcnz : counter ≠ 0)
    (hne : last ≠ counter) : 1 ≤ numNewEvents last counter := by
  unfold numNewEvents
  split_ifs <;> omega

theorem numNewEvents_zero_last (counter : Nat) : numNewEvents 0 counter = counter := by
  unfold numNewEvents
  split_ifs <;> omega

/-- Claim C1: during a startup sweep, i.e. a reconciliation where the host
cursor `last_event_counter` is 0 and the device `event_counter` is non-zero,
every new event of the batch is still run through the processing loop (its
side effects — logging, escrow handling, self-check scheduling — happen),
but no `credit_accepted` event is emitted for any accepted coin or bill in
that batch; the cursor is committed to the device counter. -/
theorem C1_startup_sweep_no_credit (env : ProcEnv) (accepting : Bool) (counter : Nat)
    (buf : List CcEventData) (hcnz : counter ≠ 0) :
    (processCreditEventLog env accepting false counter buf 0).credits = []
    ∧ (processCreditEventLog env accepting false counter buf 0).processed
        = (buf.take counter).reverse
    ∧ (processCreditEventLog env accepting false counter buf 0).last_event_num = counter := by
  rw [processCreditEventLog_normal env accepting counter buf 0 hcnz (by simpa using Ne.symm hcnz)]
  have hpre := endOfBatch_preserved env
      (processEvents env accepting ((0 : Nat) = 0) (buf.take (numNewEvents 0 counter)).reverse {})
  have hsu : (decide ((0 : Nat) = 0)) = true := by decide
  refine ⟨?_, ?_, ?_⟩
  · rw [(hpre _).1]
    simpa [numNewEvents_zero_last, hsu] using
      processEvents_credits_startup env accepting (buf.take counter).reverse {}
  · rw [(hpre _).2.1]
    simpa [numNewEvents_zero_last, hsu] using
      processEvents_processed env accepting true (buf.take counter).reverse {}
  · rw [(hpre _).2.2.1]

/-- Claim C2: for a reconciliation with `last_event_counter` and
`event_counter` both non-zero and different, the number of new events is
`diff = (event_counter - last_event_counter) mod 255` (correct across the
255 to 1 wrap); the newest `min diff 5` buffer entries are processed in
order from oldest (index `diff - 1`) to newest (index 0) — i.e. the
processed sequence is the reversal of the first `diff` entries of the
newest-first buffer; and when `diff` exceeds the 5 buffered entries a
possible-loss-of-credit condition is reported while the 5 newest entries
are still processed. -/
theorem C2_diff_mod_255_processing (env : ProcEnv) (a : Bool) (last counter : Nat)
    (buf : List CcEventData) (hl : last ≤ 255) (hc : counter ≤ 255)
    (hlnz : last ≠ 0) (hcnz : counter ≠ 0) (hne : counter ≠ last)
    (hbuf : buf.length = 5) :
    (numNewEvents last counter : Int) = ((counter : Int) - (last : Int)) % 255
    ∧ (processCreditEventLog env a false counter buf last).processed
        = (buf.take (numNewEvents last counter)).reverse
    ∧ (processCreditEventLog env a false counter buf last).processed.length
        = min (numNewEvents last counter) 5
    ∧ (processCreditEventLog env a false counter buf last).lossOfCreditLogged
        = decide (numNewEvents last counter > 5)
    ∧ (processCreditEventLog env a false counter buf last).last_event_num = counter := by
  rw [processCreditEventLog_normal env a counter buf last hcnz
      (fun h => hne (h.symm))]
  have hpre := endOfBatch_preserved env
      (processEvents env a (last = 0) (buf.take (numNewEvents last counter)).reverse {})
  have hproc : (processEvents env a (last = 0)
      (buf.take (numNewEvents last counter)).reverse {}).processed
      = (buf.take (numNewEvents last counter)).reverse := by
    simpa using processEvents_processed env a (last = 0)
      (buf.take (numNewEvents last counter)).reverse {}
  refine ⟨numNewEvents_eq_emod last counter hl hc hlnz hcnz hne, ?_, ?_, ?_, ?_⟩
  · rw [(hpre _).2.1, hproc]
  · rw [(hpre _).2.1, hproc]
    simp [hbuf, Nat.min_comm]
  · rw [(hpre _).2.2.2.1, hbuf]
  · rw [(hpre _).2.2.1]

/-- Claim C3: when the host cursor is non-zero and the device reports
`event_counter = 0`, the reconciler reports possible loss of credit, resets
the host cursor to 0, requests a device-state switch to `ExternalReset`, and
emits no `credit_accepted` from that batch. -/
theorem C3_external_reset (env : ProcEnv) (a : Bool) (last : Nat)
    (buf : List CcEventData) (hlnz : last ≠ 0) (hbuf : buf ≠ []) :
    (processCreditEventLog env a false 0 buf last).lossOfCreditLogged = true
    ∧ (processCreditEventLog env a false 0 buf last).last_event_num = 0
    ∧ (processCreditEventLog env a false 0 buf last).stateRequests
        = [CcDeviceState.ExternalReset]
    ∧ (processCreditEventLog env a false 0 buf last).credits = [] := by
  unfold processCreditEventLog
  rw [if_neg (by simp [hbuf]), if_neg (by simp), if_neg (by simp [hlnz]),
      if_pos (by simp [hlnz])]
  exact ⟨rfl, rfl, rfl, rfl⟩

/-- Concrete coin-acceptor environment for evaluating the reconciler. -/
def coinEnv : ProcEnv :=
  { category := CcCategory.CoinAcceptor
    selfCheckFaultCode := 0
    billValidatorFunc := fun _ => true }

/-- Concrete all-zero coin event entry (an empty buffer slot). -/
def zeroCoinEvent : CcEventData := mkCcEventData 0 0 CcCategory.CoinAcceptor

/-- Counterexample to claim C5 as stated: in steady state (host cursor 1,
device counter 2, one new coin-accepted event at position 1) with
`accepting = false` — i.e. the `NormalRejecting` tick of `devicePollTick` —
the reconciler still emits `credit_accepted` for position 1. -/
theorem C5_counterexample_credit_while_rejecting :
    (processCreditEventLog coinEnv false false 2
        [mkCcEventData 1 0 CcCategory.CoinAcceptor,
         zeroCoinEvent, zeroCoinEvent, zeroCoinEvent, zeroCoinEvent] 1).credits = [1]
    ∧ ([1] : List Nat) ≠ [] := by
  constructor
  · decide
  · decide

/-- Claim C5 as amended: outside of a startup sweep, with the reconciler
running in rejecting mode (`accepting = false`), accepted coin and bill
events still emit `credit_accepted`; each such emission is accompanied by one
"accepted even though we're in rejecting mode; internal error" warning, so
the number of warnings equals the number of credits emitted in the batch. -/
theorem C5_amended_rejecting_warns_per_credit (env : ProcEnv) (last counter : Nat)
    (buf : List CcEventData) (hlnz : last ≠ 0) (hcnz : counter ≠ 0)
    (hne : counter ≠ last) :
    (processCreditEventLog env false false counter buf last).internalErrorWarnings
      = (processCreditEventLog env false false counter buf last).credits.length := by
  rw [processCreditEventLog_normal env false counter buf last hcnz (fun h => hne (h.symm))]
  have hpre := endOfBatch_preserved env
      (processEvents env false (last = 0) (buf.take (numNewEvents last counter)).reverse {})
  rw [(hpre _).2.2.2.2, (hpre _).1]
  have hsu : (decide (last = 0)) = false := by simp [hlnz]
  rw [hsu]
  have := processEvents_warnings env (buf.take (numNewEvents last counter)).reverse {}
  simpa using this

/-- Witness for the amended claim C5 at a concrete steady-state batch:
cursor 1, counter 2, one accepted coin at position 1, rejecting mode. -/
theorem C5_amended_witness :
    (1 : Nat) ≠ 0 ∧ (2 : Nat) ≠ 0 ∧ (2 : Nat) ≠ 1
    ∧ (processCreditEventLog coinEnv false false 2
        [mkCcEventData 1 0 CcCategory.CoinAcceptor,
         zeroCoinEvent, zeroCoinEvent, zeroCoinEvent, zeroCoinEvent] 1).internalErrorWarnings
      = (processCreditEventLog coinEnv false false 2
        [mkCcEventData 1 0 CcCategory.CoinAcceptor,
         zeroCoinEvent, zeroCoinEvent, zeroCoinEvent, zeroCoinEvent] 1).credits.length :=
  ⟨by decide, by decide, by decide,
   C5_amended_rejecting_warns_per_credit coinEnv 1 2
     [mkCcEventData 1 0 CcCategory.CoinAcceptor,
      zeroCoinEvent, zeroCoinEvent, zeroCoinEvent, zeroCoinEvent]
     (by decide) (by decide) (by decide)⟩

/-- Concrete newest-first coin buffer: positions 1 and 2 accepted, then
empty slots. -/
def coinBufA : List CcEventData :=
  [mkCcEventData 1 0 CcCategory.CoinAcceptor,
   mkCcEventData 2 0 CcCategory.CoinAcceptor,
   zeroCoinEvent, zeroCoinEvent, zeroCoinEvent]

/-- Witness for claim C1 at a concrete startup sweep: cursor 0, counter 3,
accepting mode, two real events in the buffer. -/
theorem C1_startup_sweep_no_credit_witness :
    (3 : Nat) ≠ 0
    ∧ (processCreditEventLog coinEnv true false 3 coinBufA 0).credits = []
    ∧ (processCreditEventLog coinEnv true false 3 coinBufA 0).processed
        = (coinBufA.take 3).reverse
    ∧ (processCreditEventLog coinEnv true false 3 coinBufA 0).last_event_num = 3 :=
  ⟨by decide, C1_startup_sweep_no_credit coinEnv true 3 coinBufA (by decide)⟩

/-- Witness for claim C2 at a concrete wrapped reconciliation: cursor 254,
counter 2, so diff = 3 across the 255 to 1 wrap. -/
theorem C2_diff_mod_255_processing_witness :
    (254 : Nat) ≤ 255 ∧ (2 : Nat) ≤ 255 ∧ (254 : Nat) ≠ 0 ∧ (2 : Nat) ≠ 0
    ∧ (2 : Nat) ≠ 254 ∧ coinBufA.length = 5
    ∧ ((numNewEvents 254 2 : Int) = ((2 : Int) - (254 : Int)) % 255
      ∧ (processCreditEventLog coinEnv true false 2 coinBufA 254).processed
          = (coinBufA.take (numNewEvents 254 2)).reverse
      ∧ (processCreditEventLog coinEnv true false 2 coinBufA 254).processed.length
          = min (numNewEvents 254 2) 5
      ∧ (processCreditEventLog coinEnv true false 2 coinBufA 254).lossOfCreditLogged
          = decide (numNewEvents 254 2 > 5)
      ∧ (processCreditEventLog coinEnv true false 2 coinBufA 254).last_event_num = 2) :=
  ⟨by decide, by decide, by decide, by decide, by decide, by decide,
   C2_diff_mod_255_processing coinEnv true 254 2 coinBufA
     (by decide) (by decide) (by decide) (by decide) (by decide) (by decide)⟩

/-- Witness for claim C3 at a concrete external reset: cursor 7, counter 0,
full (all-zero) buffer. -/
theorem C3_external_reset_witness :
    (7 : Nat) ≠ 0
    ∧ [zeroCoinEvent, zeroCoinEvent, zeroCoinEvent, zeroCoinEvent, zeroCoinEvent] ≠
        ([] : List CcEventData)
    ∧ (processCreditEventLog coinEnv true false 0
        [zeroCoinEvent, zeroCoinEvent, zeroCoinEvent, zeroCoinEvent, zeroCoinEvent]
        7).lossOfCreditLogged = true
    ∧ (processCreditEventLog coinEnv true false 0
        [zeroCoinEvent, zeroCoinEvent, zeroCoinEvent, zeroCoinEvent, zeroCoinEvent]
        7).last_event_num = 0
    ∧ (processCreditEventLog coinEnv true false 0
        [zeroCoinEvent, zeroCoinEvent, zeroCoinEvent, zeroCoinEvent, zeroCoinEvent]
        7).stateRequests = [CcDeviceState.ExternalReset]
    ∧ (processCreditEventLog coinEnv true false 0
        [zeroCoinEvent, zeroCoinEvent, zeroCoinEvent, zeroCoinEvent, zeroCoinEvent]
        7).credits = [] :=
  ⟨by decide, by decide,
   (C3_external_reset coinEnv true 7
      [zeroCoinEvent, zeroCoinEvent, zeroCoinEvent, zeroCoinEvent, zeroCoinEvent]
      (by decide) (by decide)).1,
   (C3_external_reset coinEnv true 7
      [zeroCoinEvent, zeroCoinEvent, zeroCoinEvent, zeroCoinEvent, zeroCoinEvent]
      (by decide) (by decide)).2.1,
   (C3_external_reset coinEnv true 7
      [zeroCoinEvent, zeroCoinEvent, zeroCoinEvent, zeroCoinEvent, zeroCoinEvent]
      (by decide) (by decide)).2.2.1,
   (C3_external_reset coinEnv true 7
      [zeroCoinEvent, zeroCoinEvent, zeroCoinEvent, zeroCoinEvent, zeroCoinEvent]
      (by decide) (by decide)).2.2.2⟩

/-- Claim C4: a `ValidatedAndHeldInEscrow` bill event leads to a routing
decision only when it is the newest event of the batch (an older escrow event
is ignored as stale); when it is the newest, the end-of-batch decision sends
`RouteBill(ReturnBill)` (byte 0) if the scheduled self-check returned a
non-Ok fault code or force-reject was set because the batch ran in rejecting
mode (`NormalRejecting`), and otherwise sends `RouteBill(RouteToStacker)`
(byte 1) or `RouteBill(ReturnBill)` according to the host's bill-accept
predicate. -/
theorem C4_escrow_routing (env : ProcEnv) (accepting : Bool) (last counter : Nat)
    (e0 e1 e2 e3 e4 : CcEventData)
    (hcat : env.category = CcCategory.BillValidator)
    (hl : last ≤ 255) (hc : counter ≤ 255) (hcnz : counter ≠ 0) (hne : counter ≠ last) :
    ((processCreditEventLog env accepting false counter [e0, e1, e2, e3, e4] last).routeBills
        ≠ [] ↔ (e0.hasError = false ∧ e0.bill_success_code = 1))
    ∧ (e0.hasError = false → e0.bill_success_code = 1 →
        (processCreditEventLog env accepting false counter
            [e0, e1, e2, e3, e4] last).routeBills
          = [if ((processCreditEventLog env accepting false counter
                    [e0, e1, e2, e3, e4] last).selfCheckPerformed = true
                  ∧ env.selfCheckFaultCode ≠ 0)
                ∨ accepting = false then 0
             else if env.billValidatorFunc e0.bill_id then 1 else 0]) := by
  rw [processCreditEventLog_normal env accepting counter _ last hcnz (fun h => hne h.symm)]
  have hcat' : env.category ≠ CcCategory.CoinAcceptor := by
    rw [hcat]; intro h; cases h
  have hpos := numNewEvents_pos last counter hl hcnz (fun h => hne h.symm)
  obtain ⟨k, hk⟩ : ∃ k, numNewEvents last counter = k + 1 :=
    ⟨numNewEvents last counter - 1, by omega⟩
  rw [hk]
  have htake : ([e0, e1, e2, e3, e4].take (k + 1))
      = e0 :: ([e1, e2, e3, e4].take k) := rfl
  rw [htake, List.reverse_cons]
  have hfl := processEvents_flags_append env accepting (last = 0) e0 hcat'
      ([e1, e2, e3, e4].take k).reverse {}
  by_cases hesc : e0.hasError = false ∧ e0.bill_success_code = 1
  · obtain ⟨p1, p2, p3⟩ := hfl.1 hesc
    have hroute := endOfBatch_routeBills_pending env
        (processEvents env accepting (last = 0)
          (([e1, e2, e3, e4].take k).reverse ++ [e0]) {})
        { last_event_num := counter
          credits := (processEvents env accepting (last = 0)
              (([e1, e2, e3, e4].take k).reverse ++ [e0]) {}).credits
          processed := (processEvents env accepting (last = 0)
              (([e1, e2, e3, e4].take k).reverse ++ [e0]) {}).processed
          lossOfCreditLogged := k + 1 > ([e0, e1, e2, e3, e4] : List CcEventData).length
          internalErrorWarnings := (processEvents env accepting (last = 0)
              (([e1, e2, e3, e4].take k).reverse ++ [e0]) {}).internalErrorWarnings }
        p1
    have hscp := endOfBatch_selfCheckPerformed_pending env
        (processEvents env accepting (last = 0)
          (([e1, e2, e3, e4].take k).reverse ++ [e0]) {})
        { last_event_num := counter
          credits := (processEvents env accepting (last = 0)
              (([e1, e2, e3, e4].take k).reverse ++ [e0]) {}).credits
          processed := (processEvents env accepting (last = 0)
              (([e1, e2, e3, e4].take k).reverse ++ [e0]) {}).processed
          lossOfCreditLogged := k + 1 > ([e0, e1, e2, e3, e4] : List CcEventData).length
          internalErrorWarnings := (processEvents env accepting (last = 0)
              (([e1, e2, e3, e4].take k).reverse ++ [e0]) {}).internalErrorWarnings }
        p1
    rw [hroute, hscp, p2, p3]
    have hforce : ((!accepting
        || ({} : EventLoopState).bill_routing_force_reject) = true) ↔ accepting = false := by
      cases accepting <;> simp
    constructor
    · simp [hesc]
    · intro h1 h2
      simp only [hforce, List.nil_append]
  · have hne2 : e0.hasError = true ∨ e0.bill_success_code ≠ 1 := by
      by_cases he : e0.hasError = true
      · exact Or.inl he
      · exact Or.inr fun hx => hesc ⟨by simpa using he, hx⟩
    obtain ⟨p1, p2, p3⟩ := hfl.2 hne2
    have hroute := endOfBatch_routeBills_no_pending env
        (processEvents env accepting (last = 0)
          (([e1, e2, e3, e4].take k).reverse ++ [e0]) {})
        { last_event_num := counter
          credits := (processEvents env accepting (last = 0)
              (([e1, e2, e3, e4].take k).reverse ++ [e0]) {}).credits
          processed := (processEvents env accepting (last = 0)
              (([e1, e2, e3, e4].take k).reverse ++ [e0]) {}).processed
          lossOfCreditLogged := k + 1 > ([e0, e1, e2, e3, e4] : List CcEventData).length
          internalErrorWarnings := (processEvents env accepting (last = 0)
              (([e1, e2, e3, e4].take k).reverse ++ [e0]) {}).internalErrorWarnings }
        (by rw [p1])
    rw [hroute]
    constructor
    · simp [hesc]
    · intro h1 h2; exact absurd ⟨h1, h2⟩ hesc

/-- Concrete bill-validator environment; the host predicate accepts exactly
position 3. -/
def billEnv : ProcEnv :=
  { category := CcCategory.BillValidator
    selfCheckFaultCode := 0
    billValidatorFunc := fun p => p = 3 }

/-- Concrete all-zero bill event entry (an empty buffer slot). -/
def zeroBillEvent : CcEventData := mkCcEventData 0 0 CcCategory.BillValidator

/-- Concrete escrow event: bill at position 3 validated and held in escrow. -/
def escrowEvent : CcEventData := mkCcEventData 3 1 CcCategory.BillValidator

/-- Witness for claim C4 at a concrete batch: cursor 1, counter 2, newest
event is a bill held in escrow at position 3, accepting mode. -/
theorem C4_escrow_routing_witness :
    billEnv.category = CcCategory.BillValidator
    ∧ (1 : Nat) ≤ 255 ∧ (2 : Nat) ≤ 255 ∧ (2 : Nat) ≠ 0 ∧ (2 : Nat) ≠ 1
    ∧ (((processCreditEventLog billEnv true false 2
          [escrowEvent, zeroBillEvent, zeroBillEvent, zeroBillEvent, zeroBillEvent]
          1).routeBills ≠ []
        ↔ (escrowEvent.hasError = false ∧ escrowEvent.bill_success_code = 1))
      ∧ (escrowEvent.hasError = false → escrowEvent.bill_success_code = 1 →
          (processCreditEventLog billEnv true false 2
            [escrowEvent, zeroBillEvent, zeroBillEvent, zeroBillEvent, zeroBillEvent]
            1).routeBills
          = [if ((processCreditEventLog billEnv true false 2
                  [escrowEvent, zeroBillEvent, zeroBillEvent, zeroBillEvent, zeroBillEvent]
                  1).selfCheckPerformed = true
                ∧ billEnv.selfCheckFaultCode ≠ 0)
              ∨ true = false then 0
             else if billEnv.billValidatorFunc escrowEvent.bill_id then 1 else 0])) :=
  ⟨by decide, by decide, by decide, by decide, by decide,
   C4_escrow_routing billEnv true 1 2 escrowEvent zeroBillEvent zeroBillEvent
     zeroBillEvent zeroBillEvent (by decide) (by decide) (by decide) (by decide) (by decide)⟩

theorem pollingMsMultiplier_le (u : Nat) : pollingMsMultiplier u ≤ 31557600000 := by
  unfold pollingMsMultiplier
  split_ifs <;> norm_num

theorem toQuint64_signedChar_small (b : Nat) (h : b < 128) :
    toQuint64 (signedChar b) = b := by
  unfold toQuint64 signedChar
  rw [if_pos h]
  omega

/-- Counterexample to claim C6 as stated, at two concrete reply byte pairs.
For `(unit, value) = (1, 200)` the claimed decode is `200 · 1 = 200` ms — which
lies in `[1, 1000]` and would therefore be kept as the polling interval — but
the code reads the value byte through a signed `char`, sign-extends it to
`quint64` and computes `2^64 - 56`, so initialization substitutes the 100 ms
default instead.  For `(unit, value) = (8, 1)`, both bytes below 128, the
claimed unit-8 multiplier is `30 · 86400 · 10^3 = 2592000000` ms (30 days),
but the code's `case 8` is `1000UL * 60 * 60 * 24 * 7 * 30 = 18144000000` ms
(30 weeks), so the decode differs from the claimed table even without any
sign extension. -/
theorem C6_counterexample_value_sign_extended :
    requestPollingIntervalMsec 1 200 ≠ pollingMsMultiplier 1 * 200
    ∧ requestPollingIntervalMsec 1 200 = 2 ^ 64 - 56
    ∧ normalPollingIntervalAfterInit (requestPollingIntervalMsec 1 200) = 100
    ∧ normalPollingIntervalAfterInit 200 = 200
    ∧ pollingMsMultiplier 8 = 18144000000
    ∧ pollingMsMultiplier 8 ≠ 30 * 86400 * 1000
    ∧ requestPollingIntervalMsec 8 1 = 18144000000
    ∧ requestPollingIntervalMsec 8 1 ≠ 30 * 86400 * 1000 := by
  refine ⟨by decide, by decide, by decide, by decide, by decide, by decide,
    by decide, by decide⟩

/-- Claim C6 as amended: a 2-byte GetPollingPriority reply `(unit, value)`
decodes to `value · multiplier` whenever both bytes are below 128, where the
unit-to-millisecond multiplier implemented by the code is 0→0, 1→1, 2→10,
3→1000, 4→60·10³, 5→3600·10³, 6→86400·10³, 7→7·86400·10³,
8→7·30·86400·10³ = 18144000·10³ (30 weeks, not the claimed 30 days) and
9→31557600·10³ (a byte of 128 or more is read through signed `char` and
sign-extends to a huge 64-bit number instead); during initialization a
decoded product of 0 or above 1000 ms is replaced by the default 100 ms, so
after initialization the normal polling interval is always within
`[1, 1000]` ms — the latter for every reply byte pair. -/
theorem C6_amended_polling_interval (u v : Nat) (hu : u ≤ 255) (hv : v ≤ 255) :
    (pollingMsMultiplier 0 = 0 ∧ pollingMsMultiplier 1 = 1
      ∧ pollingMsMultiplier 2 = 10 ∧ pollingMsMultiplier 3 = 1000
      ∧ pollingMsMultiplier 4 = 60 * 1000 ∧ pollingMsMultiplier 5 = 3600 * 1000
      ∧ pollingMsMultiplier 6 = 86400 * 1000
      ∧ pollingMsMultiplier 7 = 7 * 86400 * 1000
      ∧ pollingMsMultiplier 8 = 7 * 30 * 86400 * 1000
      ∧ pollingMsMultiplier 9 = 31557600 * 1000)
    ∧ (u < 128 → v < 128 → requestPollingIntervalMsec u v = pollingMsMultiplier u * v)
    ∧ 1 ≤ normalPollingIntervalAfterInit (requestPollingIntervalMsec u v)
    ∧ normalPollingIntervalAfterInit (requestPollingIntervalMsec u v) ≤ 1000 := by
  refine ⟨by decide, ?_, ?_, ?_⟩
  · intro hu128 hv128
    unfold requestPollingIntervalMsec
    rw [toQuint64_signedChar_small u hu128, toQuint64_signedChar_small v hv128]
    have h1 := pollingMsMultiplier_le u
    have h2 : pollingMsMultiplier u * v < 2 ^ 64 := by
      calc pollingMsMultiplier u * v ≤ 31557600000 * 127 := by
            apply Nat.mul_le_mul h1; omega
        _ < 2 ^ 64 := by norm_num
    exact Nat.mod_eq_of_lt h2
  · unfold normalPollingIntervalAfterInit default_normal_polling_interval_msec
    split_ifs <;> omega
  · unfold normalPollingIntervalAfterInit default_normal_polling_interval_msec
    split_ifs <;> omega

/-- Witness for the amended claim C6 at the concrete reply `(2, 10)`
(10 times 10 ms, the 100 ms recommendation of scenario S1). -/
theorem C6_amended_polling_interval_witness :
    (2 : Nat) ≤ 255 ∧ (10 : Nat) ≤ 255
    ∧ ((pollingMsMultiplier 0 = 0 ∧ pollingMsMultiplier 1 = 1
          ∧ pollingMsMultiplier 2 = 10 ∧ pollingMsMultiplier 3 = 1000
          ∧ pollingMsMultiplier 4 = 60 * 1000 ∧ pollingMsMultiplier 5 = 3600 * 1000
          ∧ pollingMsMultiplier 6 = 86400 * 1000
          ∧ pollingMsMultiplier 7 = 7 * 86400 * 1000
          ∧ pollingMsMultiplier 8 = 7 * 30 * 86400 * 1000
          ∧ pollingMsMultiplier 9 = 31557600 * 1000)
      ∧ ((2 : Nat) < 128 → (10 : Nat) < 128 →
          requestPollingIntervalMsec 2 10 = pollingMsMultiplier 2 * 10)
      ∧ 1 ≤ normalPollingIntervalAfterInit (requestPollingIntervalMsec 2 10)
      ∧ normalPollingIntervalAfterInit (requestPollingIntervalMsec 2 10) ≤ 1000) :=
  ⟨by decide, by decide, C6_amended_polling_interval 2 10 (by decide) (by decide)⟩

/-- Claim C10, evaluated on the code at the failing input: the 3-byte
GetCountryScalingFactor reply `(lsb, msb, decimals) = (200, 0, 2)` should
decode to scaling factor `200 + 256 · 0 = 200`, but because the code reads
the bytes through signed `char` (`int lsb = command_data.at(0)`), the stored
`quint16` factor is `65480`; the unsigned decode claimed by the specification
is produced only for `lsb` below 128 (e.g. `(100, 1)` decodes to `356`).
The `decimal_places` byte, assigned directly to a `quint8`, is decoded
correctly. -/
theorem C10_scaling_factor_signed_char :
    countryScalingFactorDecode 200 0 = 65480
    ∧ countryScalingFactorDecode 200 0 ≠ 200 + 256 * 0
    ∧ countryScalingFactorDecode 100 1 = 100 + 256 * 1
    ∧ countryScalingFactorDecode 0 200 = 0 + 256 * 200
    ∧ countryDecimalPlacesDecode 2 = 2 := by
  refine ⟨by decide, by decide, by decide, by decide, by decide⟩

/-- Claim C9, evaluated on the code at the failing input: constructing a
`CcIdentifier` from the 6-character coin id string `"GE010A"` should yield
country `"GE"`, issue code `'A'` and `(value, coin_decimals) = (10, 0)` from
the value-code table, but the constructor's member initializer list moves the
argument into `id_string` before the body parses it, so the body sees an
empty byte array: every parsed field keeps its default and the constructor's
own `DBG_ASSERT(0)` branch is reached.  The value-code table itself does map
`"010"` to `(10, 0)` and `"5m0"` to `(5, 3)` as the specification states. -/
theorem C9_identifier_ctor_use_after_move :
    (mkCcIdentifier "GE010A").id_string = "GE010A"
    ∧ (mkCcIdentifier "GE010A").country = ""
    ∧ (mkCcIdentifier "GE010A").issue_code = 0
    ∧ (mkCcIdentifier "GE010A").value_code = 0
    ∧ (mkCcIdentifier "GE010A").coin_decimals = 0
    ∧ mkCcIdentifierAssertTriggered "GE010A" = true
    ∧ ccCoinValueCodeGetValue "010" = (10, 0)
    ∧ ccCoinValueCodeGetValue "5m0" = (5, 3)
    ∧ (mkCcIdentifier "GE0020A").country = ""
    ∧ (mkCcIdentifier "GE0020A").value_code = 0 := by
  refine ⟨by decide, by decide, by decide, by decide, by decide,
    by decide, by decide, by decide, by decide, by decide⟩

/-- Counterexample to claim C7 as stated: for a transmitted request `[1, 2]`
and a received buffer `[9, 9, 5]` whose leading bytes are not a byte-for-byte
copy of the request, the claim demands that the full buffer `[9, 9, 5]` be
surfaced; the code instead strips `request.length` bytes unconditionally and
delivers `[5]`. -/
theorem C7_counterexample_no_echo_verification :
    sendRequestDeliveredResponse [1, 2] [9, 9, 5] = [5]
    ∧ ([9, 9, 5] : List Nat).take 2 ≠ [1, 2]
    ∧ sendRequestDeliveredResponse [1, 2] [9, 9, 5] ≠ [9, 9, 5] := by
  refine ⟨by decide, by decide, by decide⟩

/-- Claim C7 as amended: for every send that expects a reply, the delivered
response equals the received buffer with its first `length request` bytes
removed (empty when fewer bytes than the request were received); the removed
bytes are never compared with the transmitted request, and the full buffer is
never surfaced. -/
theorem C7_amended_unconditional_strip (request_data response_data : List Nat) :
    sendRequestDeliveredResponse request_data response_data
      = response_data.drop request_data.length := by
  unfold sendRequestDeliveredResponse byteArrayRight
  split_ifs with h1 h2
  · have h0 : request_data.length = 0 := by omega
    rw [h0, List.drop_zero]
  · have hlt : response_data.length ≤ request_data.length := by omega
    exact (List.drop_eq_nil_of_le hlt).symm
  · have heq : response_data.length
        - ((response_data.length : Int) - (request_data.length : Int)).toNat
        = request_data.length := by omega
    rw [heq]

/-- Counterexample to claim C8 as stated: with 16-bit CRC checksums
configured, `ccRequest` declines the submission (request id 0, nothing sent
to the serial worker) but emits no structure error — it only logs an error
message, and the completion callback of `executeOnReturn` is never
registered. -/
theorem C8_counterexample_no_structure_error :
    (ccRequest { device_addr := 2, checksum_16bit := true, des_encrypted := false }
        5 254 []).structureErrors = 0
    ∧ (ccRequest { device_addr := 2, checksum_16bit := true, des_encrypted := false }
        5 254 []).request_id = 0
    ∧ (ccRequest { device_addr := 2, checksum_16bit := true, des_encrypted := false }
        5 254 []).sentToWorker = none := by
  refine ⟨by decide, by decide, by decide⟩

/-- Claim C8 as amended: if the link is configured with 16-bit CRC checksums
or DES encryption, every request submission is declined at submission time —
`ccRequest` logs one error message and returns the reserved request id 0
("not sent"), no structure-error signal is emitted, `executeOnReturn` never
registers a completion for id 0, and no bytes are ever handed to the serial
worker for that request. -/
theorem C8_amended_unsupported_declined (opts : CcOptions) (req_num command : Nat)
    (data : List Nat) (h : opts.checksum_16bit = true ∨ opts.des_encrypted = true) :
    (ccRequest opts req_num command data).request_id = 0
    ∧ (ccRequest opts req_num command data).sentToWorker = none
    ∧ (ccRequest opts req_num command data).structureErrors = 0
    ∧ (ccRequest opts req_num command data).logMessages = 1
    ∧ executeOnReturnRegisters (ccRequest opts req_num command data).request_id = false := by
  unfold ccRequest executeOnReturnRegisters
  rcases h with h | h <;> split_ifs <;> simp_all

/-- Witness for the amended claim C8 at a concrete configuration with 16-bit
CRC checksums enabled. -/
theorem C8_amended_unsupported_declined_witness :
    (({ device_addr := 2, checksum_16bit := true, des_encrypted := false }
        : CcOptions).checksum_16bit = true
      ∨ ({ device_addr := 2, checksum_16bit := true, des_encrypted := false }
        : CcOptions).des_encrypted = true)
    ∧ ((ccRequest { device_addr := 2, checksum_16bit := true, des_encrypted := false }
          5 254 []).request_id = 0
      ∧ (ccRequest { device_addr := 2, checksum_16bit := true, des_encrypted := false }
          5 254 []).sentToWorker = none
      ∧ (ccRequest { device_addr := 2, checksum_16bit := true, des_encrypted := false }
          5 254 []).structureErrors = 0
      ∧ (ccRequest { device_addr := 2, checksum_16bit := true, des_encrypted := false }
          5 254 []).logMessages = 1
      ∧ executeOnReturnRegisters
          (ccRequest { device_addr := 2, checksum_16bit := true, des_encrypted := false }
            5 254 []).request_id = false) :=
  ⟨Or.inl (by decide),
   C8_amended_unsupported_declined
     { device_addr := 2, checksum_16bit := true, des_encrypted := false }
     5 254 [] (Or.inl (by decide))⟩
